import Mathlib

/-!
Verification of the market-observer news pipeline.

The Python modules `analyzer/scorer.py`, `analyzer/classifier.py`,
`analyzer/trigger_detector.py`, `alert/detector.py` and `data/history.py`
are embedded shallowly below:

* Python dictionaries carrying news items are association lists
  `List (String × Val)` looked up first-match-first (the model is
  lookup-equivalent to Python's key/value semantics);
* Python floats that only ever hold one-decimal scores and ratios are
  modelled as rationals;
* `int(x * 1.2)` style truncation of a scaled integer is modelled by
  truncated integer division `Int.tdiv (x * 12) 10`;
* `random.choice(pool)` is modelled by an extra `rng : Nat` argument
  selecting `pool[rng % pool.length]`;
* `datetime` calendar dates are modelled as integer day numbers
  (lexicographic order on ISO date strings coincides with day order);
* a Python exception that aborts a computation is modelled by `Option`,
  the raised state being `none`.
-/

namespace MarketObserver

/-- Python's `needle in hay` prefix step: `needle` begins `hay`. -/
def leadsWith : List Char → List Char → Bool
  | [], _ => true
  | _ :: _, [] => false
  | a :: as, b :: bs => a = b && leadsWith as bs

/-- Python's substring test `needle in hay` on character lists. -/
def subOf (needle : List Char) : List Char → Bool
  | [] => needle.isEmpty
  | c :: t => leadsWith needle (c :: t) || subOf needle t

/-- `strHas hay needle` is Python's `needle in hay` on strings. -/
def strHas (hay needle : String) : Bool :=
  subOf needle.data hay.data

/-- ASCII lowercase of one character (all keywords in this code base are
ASCII or Japanese, so ASCII lowering models Python's `str.lower` here). -/
def charLower (c : Char) : Char :=
  if 'A' ≤ c && c ≤ 'Z' then Char.ofNat (c.toNat + 32) else c

/-- Python's `s.lower()` (ASCII model). -/
def strLower (s : String) : String :=
  ⟨s.data.map charLower⟩

/-- A JSON-ish value stored in a news-item dictionary. -/
inductive Val where
  | str (s : String)
  | int (n : Int)
  | null
deriving DecidableEq, Repr

/-- A Python dictionary, as an association list (first match wins). -/
abbrev NDict := List (String × Val)

/-- `d.get(k)` / `d[k]`-style lookup. -/
def dget (d : NDict) (k : String) : Option Val :=
  (List.find? (fun p => p.1 = k) d).map (fun p => p.2)

/-- `d.get(k, default)`. -/
def dgetD (d : NDict) (k : String) (v : Val) : Val :=
  (dget d k).getD v

/-- `d[k] = v` assignment (lookup-equivalent model). -/
def dput (d : NDict) (k : String) (v : Val) : NDict :=
  (k, v) :: d

/-- Python's `{**a, **b}`: keys of `b` override keys of `a`
(lookup-equivalent model). -/
def dmerge (a b : NDict) : NDict :=
  b ++ a

/-! ## `config.py` -/

def SCORE_MIN : Int := -10
def SCORE_MAX : Int := 10
def ALERT_DAILY_CHANGE : ℚ := 3
def ALERT_MA_WINDOW : Nat := 3
def ALERT_DOMESTIC_FOREIGN_GAP : ℚ := 5

/-- `CATEGORIES.get(category, category)` from `config.py`. -/
def CATEGORIES (category : String) : String :=
  if category = "market" then "市場全体"
  else if category = "sector" then "セクター"
  else if category = "theme" then "テーマ"
  else category

/-! ## `analyzer/scorer.py` -/

/-- The `positive_keywords` dict of `calculate_impact_score`,
in source (insertion) order. -/
def positive_keywords : List (String × Int) :=
  [("過去最高", 3), ("急騰", 3), ("大幅上昇", 3), ("予想上回る", 3),
   ("beat expectations", 3), ("record high", 3), ("surge", 3),
   ("利下げ", 2), ("金融緩和", 2), ("景気回復", 2),
   ("rate cut", 2), ("easing", 2), ("recovery", 2),
   ("上昇", 2), ("増益", 2), ("好調", 2), ("改善", 2), ("成長", 2),
   ("買い越し", 2), ("需要増", 2),
   ("rise", 2), ("growth", 2), ("gains", 2), ("rally", 2),
   ("堅調", 1), ("安定", 1), ("維持", 1), ("底堅い", 1),
   ("stable", 1), ("steady", 1)]

/-- The `negative_keywords` dict of `calculate_impact_score`,
in source (insertion) order. -/
def negative_keywords : List (String × Int) :=
  [("暴落", -3), ("急落", -3), ("危機", -3), ("破綻", -3), ("デフォルト", -3),
   ("crash", -3), ("plunge", -3), ("crisis", -3), ("default", -3),
   ("利上げ", -2), ("金融引き締め", -2), ("リセッション", -2),
   ("rate hike", -2), ("tightening", -2), ("recession", -2),
   ("下落", -2), ("減益", -2), ("悪化", -2), ("低下", -2), ("減少", -2),
   ("売り越し", -2), ("需要減", -2), ("インフレ懸念", -2),
   ("decline", -2), ("drop", -2), ("fall", -2), ("loss", -2), ("tariff", -2),
   ("軟調", -1), ("弱含み", -1), ("警戒", -1), ("懸念", -1),
   ("uncertainty", -1), ("concern", -1), ("cautious", -1)]

/-- The keywords of a table matched against `text.lower()`
(`if kw.lower() in text_lower`), in table order. -/
def matchedKeywords (table : List (String × Int)) (text : String) :
    List (String × Int) :=
  table.filter (fun p => strHas (strLower text) (strLower p.1))

/-- The raw keyword sum of `calculate_impact_score` before the
range corrections (positive loop, then negative loop). -/
def rawScore (text : String) : Int :=
  ((matchedKeywords positive_keywords text).map (fun p => p.2)).sum
    + ((matchedKeywords negative_keywords text).map (fun p => p.2)).sum

/-- `matched_positive` of `calculate_impact_score`. -/
def matchedPositive (text : String) : List String :=
  (matchedKeywords positive_keywords text).map (fun p => p.1)

/-- `matched_negative` of `calculate_impact_score`. -/
def matchedNegative (text : String) : List String :=
  (matchedKeywords negative_keywords text).map (fun p => p.1)

/-- The影響範囲 correction: `int(score * 1.2)` for "market",
`int(score * 1.0)` for "sector", `int(score * 0.8)` for "theme",
unchanged otherwise.  `int(·)` truncates toward zero. -/
def categoryAdjust (category : Val) (score : Int) : Int :=
  if category = Val.str "market" then Int.tdiv (score * 12) 10
  else if category = Val.str "sector" then score
  else if category = Val.str "theme" then Int.tdiv (score * 8) 10
  else score

/-- The source correction: `int(score * 1.1)` when source is "foreign". -/
def sourceAdjust (source : Val) (score : Int) : Int :=
  if source = Val.str "foreign" then Int.tdiv (score * 11) 10
  else score

/-- The pre-clamp score of `calculate_impact_score`: keyword sum,
then category factor, then source factor. -/
def adjustedScore (text : String) (category source : Val) : Int :=
  sourceAdjust source (categoryAdjust category (rawScore text))

/-- The numeric result of `calculate_impact_score`:
`max(SCORE_MIN, min(SCORE_MAX, score))` applied last. -/
def impactScoreNum (text : String) (category source : Val) : Int :=
  max SCORE_MIN (min SCORE_MAX (adjustedScore text category source))

/-- The `neutral_reasons` pool of `_generate_reason`. -/
def neutral_reasons : List String :=
  ["市場影響が限定的と判断",
   "定性的情報に留まり、価格材料不足",
   "市場全体への波及が不明確",
   "個別・話題性中心で指数影響は限定的",
   "事実報道で方向性を断定できず"]

/-- `_generate_reason(score, positive, negative, category)`;
`random.choice(neutral_reasons)` is modelled by the index `rng % 5`.
The `category` argument is unused, as in the source. -/
def generate_reason (score : Int) (positive negative : List String)
    (_category : Val) (rng : Nat) : String :=
  if score = 0 then
    if positive.isEmpty && negative.isEmpty then
      (neutral_reasons.get? (rng % neutral_reasons.length)).getD ""
    else if !positive.isEmpty && !negative.isEmpty then
      "好悪材料が混在（+: " ++ String.intercalate ", " (positive.take 2)
        ++ " / -: " ++ String.intercalate ", " (negative.take 2) ++ "）"
    else
      "定性的情報に留まり、価格材料不足"
  else if 0 < score then
    if 5 ≤ score then
      "強い好材料あり（" ++ String.intercalate ", " (positive.take 3) ++ "）"
    else if 2 ≤ score then
      "やや好材料（" ++ String.intercalate ", " (positive.take 2) ++ "）"
    else
      "弱い好材料の示唆（" ++ String.intercalate ", " (positive.take 2) ++ "）"
  else
    if score ≤ -5 then
      "強い懸念材料あり（" ++ String.intercalate ", " (negative.take 3) ++ "）"
    else if score ≤ -2 then
      "やや懸念材料（" ++ String.intercalate ", " (negative.take 2) ++ "）"
    else
      "弱い懸念材料の示唆（" ++ String.intercalate ", " (negative.take 2) ++ "）"

/-- `calculate_impact_score` on the already-extracted fields
`text`, `category`, `source` (the dict extraction is
`calculate_impact_score` below). -/
def impactScoreCore (text : String) (category source : Val) (rng : Nat) :
    Int × String :=
  (impactScoreNum text category source,
   generate_reason (impactScoreNum text category source)
     (matchedPositive text) (matchedNegative text) category rng)

/-- `calculate_impact_score(classified_news)`: `text` defaults to `""`
when the key is missing (`.get("text", "")`), `category` to `"market"`,
`source` to `"domestic"`.  A non-string `text` raises in Python
(`text.lower()`), modelled as `none`. -/
def calculate_impact_score (d : NDict) (rng : Nat) : Option (Int × String) :=
  match dget d "text" with
  | none => some (impactScoreCore ""
      (dgetD d "category" (Val.str "market"))
      (dgetD d "source" (Val.str "domestic")) rng)
  | some (Val.str t) => some (impactScoreCore t
      (dgetD d "category" (Val.str "market"))
      (dgetD d "source" (Val.str "domestic")) rng)
  | some _ => none

example : impactScoreNum "株価が上昇、景気回復" (Val.str "market") (Val.str "domestic") = 4 := by decide
example : impactScoreNum "crash and crisis and plunge and default" (Val.str "market") (Val.str "foreign") = -10 := by decide
example : impactScoreNum "" (Val.str "market") (Val.str "domestic") = 0 := by decide

/-- `score_news_batch`'s per-item body: copy the item, add
`impact_score` and `score_reason`. -/
def scoreItem (rng : Nat) (news : NDict) : Option NDict :=
  (calculate_impact_score news rng).map (fun p =>
    dput (dput news "impact_score" (Val.int p.1)) "score_reason" (Val.str p.2))

/-- `score_news_batch(classified_news_list)`; the `rng` function gives the
random draw used for item `i`.  A raised exception aborts the whole
loop (`none`): the source has no per-item error handling. -/
def score_news_batch (rng : Nat → Nat) : List NDict → Option (List NDict) :=
  go 0
where
  go : Nat → List NDict → Option (List NDict)
    | _, [] => some []
    | i, news :: rest =>
      match scoreItem (rng i) news with
      | none => none
      | some r => (go (i + 1) rest).map (fun rs => r :: rs)

/-! ## `analyzer/classifier.py` -/

/-- The `market_keywords` list of `classify_news`, in source order. -/
def market_keywords : List String :=
  ["日経平均", "TOPIX", "ダウ", "S&P", "ナスダック", "NASDAQ",
   "FRB", "日銀", "金融政策", "金利", "円安", "円高",
   "GDP", "インフレ", "CPI", "雇用統計", "景気",
   "利上げ", "利下げ", "量的緩和", "QE"]

/-- The `sector_keywords` dict of `classify_news`, in source order. -/
def sector_keywords : List (String × List String) :=
  [("テクノロジー", ["AI", "半導体", "クラウド", "ソフトウェア", "IT", "エヌビディア", "NVIDIA"]),
   ("金融", ["銀行", "証券", "保険", "メガバンク", "金融機関"]),
   ("自動車", ["自動車", "EV", "電気自動車", "トヨタ", "ホンダ"]),
   ("不動産", ["不動産", "REIT", "住宅"]),
   ("エネルギー", ["原油", "石油", "ガス", "電力", "再エネ"]),
   ("ヘルスケア", ["製薬", "医療", "バイオ", "ヘルスケア"]),
   ("消費", ["小売", "消費", "EC", "通販"])]

/-- The `theme_keywords` dict of `classify_news`, in source order. -/
def theme_keywords : List (String × List String) :=
  [("地政学リスク", ["戦争", "紛争", "制裁", "地政学", "ウクライナ", "中東", "台湾"]),
   ("規制・政策", ["規制", "法案", "法律", "独禁法", "規制緩和"]),
   ("決算・業績", ["決算", "業績", "売上", "利益", "増収", "減益"]),
   ("M&A", ["買収", "合併", "M&A", "TOB", "統合"])]

/-- The `for ... if any(kw in text for kw in keywords): ...; break` loop
over a grouped keyword table: the first group with a matching keyword.
`match?` is the membership test used on each keyword (the source tests
`kw in news_text`, i.e. case-SENSITIVELY against the raw text, even
though it computes `text_lower` a few lines earlier). -/
def firstGroup (matchOne : String → Bool) :
    List (String × List String) → Option String
  | [] => none
  | (g, kws) :: rest =>
    if kws.any matchOne then some g else firstGroup matchOne rest

/-- The category / sub-category decision of `classify_news`, over a
given per-keyword matcher: sector sets a provisional result, theme
overrides it, a market keyword wins last, default is ("market", none). -/
def classifyDecision (matchOne : String → Bool) : String × Option String :=
  let afterSector :=
    match firstGroup matchOne sector_keywords with
    | some s => ("sector", some s)
    | none => ("market", (none : Option String))
  let afterTheme :=
    match firstGroup matchOne theme_keywords with
    | some t => ("theme", some t)
    | none => afterSector
  if market_keywords.any matchOne then ("market", none) else afterTheme

/-- `classify_news(news_text, source)`.  As in the source, keyword
membership is `kw in news_text` — case-sensitive on the raw text
(`text_lower` is computed but never used). -/
def classify_news (news_text : String) (source : Val) : NDict :=
  let d := classifyDecision (fun kw => strHas news_text kw)
  [("text", Val.str news_text),
   ("source", source),
   ("category", Val.str d.1),
   ("category_name", Val.str (CATEGORIES d.1)),
   ("sub_category", (d.2.map Val.str).getD Val.null)]

/-- Following the spec's words (for comparison with `classify_news`):
the same decision but with case-INSENSITIVE substring matching of each
keyword against the text. -/
def classify_news_ci (news_text : String) (source : Val) : NDict :=
  let d := classifyDecision (fun kw => strHas (strLower news_text) (strLower kw))
  [("text", Val.str news_text),
   ("source", source),
   ("category", Val.str d.1),
   ("category_name", Val.str (CATEGORIES d.1)),
   ("sub_category", (d.2.map Val.str).getD Val.null)]

/-- `classify_news_batch`'s per-item body:
`{**item, **classify_news(item["text"], item.get("source", "domestic"))}`.
A missing `text` key raises `KeyError` (and a non-string text raises in
`news_text.lower()`), aborting the batch: modelled as `none`. -/
def classifyItem (item : NDict) : Option NDict :=
  match dget item "text" with
  | some (Val.str t) =>
    some (dmerge item (classify_news t (dgetD item "source" (Val.str "domestic"))))
  | _ => none

/-- `classify_news_batch(news_list)`: one pass, no per-item error
handling, so a raised item aborts the whole batch (`none`). -/
def classify_news_batch : List NDict → Option (List NDict)
  | [] => some []
  | item :: rest =>
    match classifyItem item with
    | none => none
    | some r => (classify_news_batch rest).map (fun rs => r :: rs)

example : dget (classify_news "nvidia" (Val.str "domestic")) "category" = some (Val.str "market") := by decide
example : dget (classify_news_ci "nvidia" (Val.str "domestic")) "category" = some (Val.str "sector") := by decide
example : dget (classify_news "日銀が利上げ" (Val.str "domestic")) "category" = some (Val.str "market") := by decide
example : dget (classify_news "トヨタの決算" (Val.str "domestic")) "category" = some (Val.str "theme") := by decide
example : dget (classify_news "トヨタが増産" (Val.str "domestic")) "sub_category" = some (Val.str "自動車") := by decide

/-! ## `calculate_aggregate_scores` (`analyzer/scorer.py`) -/

/-- Python's `round` to the nearest integer, ties to even. -/
def rndHalfEven (q : ℚ) : Int :=
  let f : Int := ⌊q⌋
  let r : ℚ := q - f
  if r < 1/2 then f
  else if 1/2 < r then f + 1
  else if f % 2 = 0 then f else f + 1

/-- Python's `round(x, 1)`: one decimal, ties to even. -/
def round1 (q : ℚ) : ℚ :=
  (rndHalfEven (q * 10) : ℚ) / 10

/-- The aggregate record returned by `calculate_aggregate_scores`. -/
structure AggScores where
  total_score : ℚ
  domestic_score : ℚ
  foreign_score : ℚ
  domestic_foreign_gap : ℚ
  news_count : Nat
  zero_score_count : Nat
deriving DecidableEq, Repr

/-- The all-zero record returned on an empty input list. -/
def zeroAgg : AggScores :=
  { total_score := 0, domestic_score := 0, foreign_score := 0,
    domestic_foreign_gap := 0, news_count := 0, zero_score_count := 0 }

/-- `n["impact_score"]`: raises (`none`) unless the key holds an int. -/
def getImpact (n : NDict) : Option Int :=
  match dget n "impact_score" with
  | some (Val.int s) => some s
  | _ => none

/-- A list comprehension whose body may raise: the first raise aborts
the whole comprehension. -/
def mapO (f : α → Option β) : List α → Option (List β)
  | [] => some []
  | a :: t =>
    match f a with
    | none => none
    | some b => (mapO f t).map (fun bs => b :: bs)

/-- Sum of a list of rationals divided by its length, 0 when empty
(mirrors `sum(xs)/len(xs) if xs else 0`). -/
def avgOr0 (xs : List Int) : ℚ :=
  if xs.isEmpty then 0 else ((xs.sum : Int) : ℚ) / (xs.length : ℚ)

/-- `calculate_aggregate_scores(scored_news_list)`.  The comprehension
`[n["impact_score"] for n in ...]` raises on an item without an integer
`impact_score`, aborting the call (`none`). -/
def calculate_aggregate_scores (l : List NDict) : Option AggScores :=
  if l.isEmpty then some zeroAgg else
  match mapO getImpact (l.filter (fun n => dget n "source" = some (Val.str "domestic"))) with
  | none => none
  | some domestic_scores =>
  match mapO getImpact (l.filter (fun n => dget n "source" = some (Val.str "foreign"))) with
  | none => none
  | some foreign_scores =>
  match mapO getImpact l with
  | none => none
  | some all_scores =>
    let domestic_avg := avgOr0 domestic_scores
    let foreign_avg := avgOr0 foreign_scores
    let total_avg := avgOr0 all_scores
    some
      { total_score := round1 total_avg,
        domestic_score := round1 domestic_avg,
        foreign_score := round1 foreign_avg,
        domestic_foreign_gap := round1 (domestic_avg - foreign_avg),
        news_count := l.length,
        zero_score_count := (all_scores.filter (fun s => s = 0)).length }

/-! ## `alert/detector.py` -/

/-- An alert record; the presentational `message` f-string is omitted
from the model (no claim concerns it). -/
structure Alert where
  kind : String
  severity : String
deriving DecidableEq, Repr

/-- The history entries and the `current_scores` argument of
`detect_alerts` are aggregate records; `h.get("total_score", 0)` and
`current.get("domestic_foreign_gap", 0)` read these fields. -/
abbrev AggRec := AggScores

/-- The last `n` elements of a list (Python's `l[-n:]` for `0 < n`). -/
def lastN (n : Nat) (l : List AggRec) : List AggRec :=
  l.drop (l.length - n)

/-- Section 1 of `detect_alerts`: the前日比 (daily change) check against
the last history entry. -/
def dailyChangeAlerts (history : List AggRec) (current : AggRec) : List Alert :=
  match history.getLast? with
  | none => []
  | some prev =>
    let daily_change := current.total_score - prev.total_score
    if ALERT_DAILY_CHANGE ≤ |daily_change| then
      [{ kind := "daily_change",
         severity := if 5 ≤ |daily_change| then "warning" else "info" }]
    else []

/-- Section 2 of `detect_alerts`: the moving-average sign-reversal
check.  `ma` averages `history[-3:]`; `prev_ma` averages
`history[-4:-1]` (divided by the window size 3) and is `None` unless
`len(history) > 3`. -/
def maReversalAlerts (history : List AggRec) : List Alert :=
  if ALERT_MA_WINDOW ≤ history.length then
    let recent := (lastN ALERT_MA_WINDOW history).map (fun h => h.total_score)
    let ma := recent.sum / (recent.length : ℚ)
    if ALERT_MA_WINDOW < history.length then
      let prev_ma := ((lastN ALERT_MA_WINDOW history.dropLast).map
        (fun h => h.total_score)).sum / (ALERT_MA_WINDOW : ℚ)
      if 0 ≤ ma ∧ prev_ma < 0 then
        [{ kind := "ma_reversal", severity := "info" }]
      else if ma < 0 ∧ 0 ≤ prev_ma then
        [{ kind := "ma_reversal", severity := "warning" }]
      else []
    else []
  else []

/-- Section 3 of `detect_alerts`: the domestic/foreign gap check. -/
def gapAlerts (current : AggRec) : List Alert :=
  let gap := current.domestic_foreign_gap
  if ALERT_DOMESTIC_FOREIGN_GAP ≤ |gap| then
    if 0 < gap then [{ kind := "domestic_foreign_gap", severity := "info" }]
    else [{ kind := "domestic_foreign_gap", severity := "warning" }]
  else []

/-- `AlertDetector.detect_alerts(current_scores)` with the detector's
`self.history` made explicit: the three checks append in order. -/
def detect_alerts (history : List AggRec) (current : AggRec) : List Alert :=
  dailyChangeAlerts history current ++ maReversalAlerts history ++ gapAlerts current

/-! ## `analyzer/trigger_detector.py` -/

/-- The `Trigger` dataclass. -/
structure Trigger where
  id : String
  name : String
  message : String
  fired : Bool
deriving DecidableEq, Repr

def triggerA : Trigger :=
  { id := "A", name := "材料出揃いの兆候",
    message := "市場が評価可能な材料に反応し始めている可能性があります。",
    fired := true }

def triggerB : Trigger :=
  { id := "B", name := "ノイズ優勢状態",
    message := "判断材料として使いにくいニュースが多い状態が続いています。",
    fired := true }

def triggerC : Trigger :=
  { id := "C", name := "評価の偏り",
    message := "市場の受け止め方が一方向に偏っている可能性があります。",
    fired := true }

def triggerD : Trigger :=
  { id := "D", name := "マクロ前提変化",
    message := "株価以外の前提条件（金利・為替など）への注目が高まっています。",
    fired := true }

/-- `TriggerDetector.detect(zero_ratio, plus2_ratio, minus2_ratio,
macro_ratio, consecutive_high_zero_days)`: the four conditional
appends, in order; appended triggers have `fired = True`. -/
def TriggerDetector.detect (zr p2 m2 mr : ℚ) (chzd : Nat) : List Trigger :=
  (if zr < 50 ∧ (30 < p2 ∨ 30 < m2) then [triggerA] else [])
    ++ (if 80 < zr ∧ 2 ≤ chzd then [triggerB] else [])
    ++ (if 50 < p2 ∨ 50 < m2 then [triggerC] else [])
    ++ (if 30 < mr then [triggerD] else [])

/-! ## `data/history.py` -/

/-- The non-date payload written by `add_daily_record`. -/
structure DailyVals where
  total_score : ℚ
  zero_ratio : ℚ
  plus2_ratio : ℚ
  minus2_ratio : ℚ
  news_count : Int
  macro_r : ℚ
deriving DecidableEq, Repr

/-- One entry of `HistoryManager.history`; dates are day numbers
(lexicographic order on ISO date strings is day order). -/
structure HRec where
  date : Int
  vals : DailyVals
deriving DecidableEq, Repr

/-- The update loop of `add_daily_record`: update the first record whose
date is `today` in place (keeping its position) and stop; `none` when no
record matches. -/
def updateFirst (today : Int) (v : DailyVals) : List HRec → Option (List HRec)
  | [] => none
  | r :: rest =>
    if r.date = today then some (({ date := r.date, vals := v } : HRec) :: rest)
    else (updateFirst today v rest).map (fun rs => r :: rs)

/-- `HistoryManager.add_daily_record(...)` as a pure state transition on
`self.history`, with `datetime.now()`'s date passed as `today`.  When a
record for `today` exists the update path returns at once — without the
30-day prune.  Otherwise the new record is appended and every record
with `date < today - 30` (strictly older than the cutoff
`today - timedelta(days=30)`) is dropped. -/
def add_daily_record (history : List HRec) (today : Int) (v : DailyVals) :
    List HRec :=
  match updateFirst today v history with
  | some h => h
  | none =>
    (history ++ [({ date := today, vals := v } : HRec)]).filter
      (fun r => today - 30 ≤ r.date)

/-! ## Theorems -/

/-- C1: for every input item (any text, any category value, any origin
value, any random draw), `calculate_impact_score` returns an integer
score in `[SCORE_MIN, SCORE_MAX] = [-10, 10]`, and that score is
exactly the clamp `max(SCORE_MIN, min(SCORE_MAX, ·))` applied as the
final numeric step, after the category factor and then the source
(origin) factor multiplications. -/
theorem impact_score_in_range_clamp_last :
    (∀ (text : String) (category source : Val) (rng : Nat),
        (impactScoreCore text category source rng).1
          = max SCORE_MIN (min SCORE_MAX
              (sourceAdjust source (categoryAdjust category (rawScore text))))
        ∧ SCORE_MIN ≤ (impactScoreCore text category source rng).1
        ∧ (impactScoreCore text category source rng).1 ≤ SCORE_MAX)
    ∧ (∀ (d : NDict) (rng : Nat) (p : Int × String),
        calculate_impact_score d rng = some p →
        SCORE_MIN ≤ p.1 ∧ p.1 ≤ SCORE_MAX) := by
  have hcore : ∀ (text : String) (category source : Val) (rng : Nat),
      SCORE_MIN ≤ (impactScoreCore text category source rng).1
        ∧ (impactScoreCore text category source rng).1 ≤ SCORE_MAX := by
    intro text category source rng
    show SCORE_MIN ≤ impactScoreNum text category source
      ∧ impactScoreNum text category source ≤ SCORE_MAX
    unfold impactScoreNum SCORE_MIN SCORE_MAX
    omega
  refine ⟨fun text category source rng => ⟨rfl, hcore text category source rng⟩,
    fun d rng p hp => ?_⟩
  unfold calculate_impact_score at hp
  rcases hv : dget d "text" with _ | v
  · rw [hv] at hp
    cases hp
    exact hcore _ _ _ _
  · rcases v with s | n | _ <;> rw [hv] at hp <;> cases hp
    exact hcore _ _ _ _

/-- Witness for C1 at a concrete item. -/
theorem impact_score_in_range_clamp_last_witness :
    calculate_impact_score [("text", Val.str "急騰")] 0 = some (3, "やや好材料（急騰）")
    ∧ SCORE_MIN ≤ (3 : Int) ∧ (3 : Int) ≤ SCORE_MAX :=
  ⟨by decide,
   impact_score_in_range_clamp_last.2 [("text", Val.str "急騰")] 0
     (3, "やや好材料（急騰）") (by decide)⟩

/-- C9: the numeric score is a deterministic function of the item's
text, category and source: it does not depend on the random draw used
by `_generate_reason` — while the reason wording genuinely can differ
between draws when the score is 0 with no keyword match of either
polarity. -/
theorem numeric_score_deterministic :
    (∀ (text : String) (category source : Val) (r1 r2 : Nat),
        (impactScoreCore text category source r1).1
          = (impactScoreCore text category source r2).1)
    ∧ (∀ (d : NDict) (r1 r2 : Nat),
        (calculate_impact_score d r1).map Prod.fst
          = (calculate_impact_score d r2).map Prod.fst)
    ∧ (impactScoreCore "" (Val.str "market") (Val.str "domestic") 0).2
        ≠ (impactScoreCore "" (Val.str "market") (Val.str "domestic") 1).2 := by
  refine ⟨fun _ _ _ _ _ => rfl, fun d r1 r2 => ?_, by decide⟩
  unfold calculate_impact_score
  rcases dget d "text" with _ | (s | n | _) <;> rfl

/-- C2 (evaluation at the failing input): on the text "nvidia" the
code's `classify_news` — which tests `kw in news_text` against the raw
text, leaving `text_lower` unused — finds no keyword and falls back to
("market", no sub-category), while the case-insensitive matching
described by the spec (`classify_news_ci`) matches the テクノロジー
sector keyword "NVIDIA" and returns ("sector", "テクノロジー"). -/
theorem classify_case_sensitivity_divergence :
    dget (classify_news "nvidia" (Val.str "domestic")) "category"
        = some (Val.str "market")
    ∧ dget (classify_news "nvidia" (Val.str "domestic")) "sub_category"
        = some Val.null
    ∧ dget (classify_news_ci "nvidia" (Val.str "domestic")) "category"
        = some (Val.str "sector")
    ∧ dget (classify_news_ci "nvidia" (Val.str "domestic")) "sub_category"
        = some (Val.str "テクノロジー") := by
  refine ⟨by decide, by decide, by decide, by decide⟩

/-- C7: trigger B ("ノイズ優勢状態") fires exactly when
`zero_ratio > 80` AND `consecutive_high_zero_days ≥ 2`; satisfying only
one of the two conditions never fires it, whatever the other ratio
arguments are. -/
theorem trigger_b_fires_iff :
    ∀ (zr p2 m2 mr : ℚ) (chzd : Nat),
      (TriggerDetector.detect zr p2 m2 mr chzd).filter (fun t => t.id == "B")
        = if 80 < zr ∧ 2 ≤ chzd then [triggerB] else [] := by
  intro zr p2 m2 mr chzd
  unfold TriggerDetector.detect
  split_ifs <;> rfl

/-- No alert of section 2 is a daily-change alert. -/
lemma maReversal_no_daily (history : List AggRec) :
    (maReversalAlerts history).filter (fun a => a.kind == "daily_change") = [] := by
  simp only [maReversalAlerts]
  split_ifs <;> rfl

/-- No alert of section 3 is a daily-change alert. -/
lemma gap_no_daily (current : AggRec) :
    (gapAlerts current).filter (fun a => a.kind == "daily_change") = [] := by
  simp only [gapAlerts]
  split_ifs <;> rfl

/-- No alert of section 1 is a moving-average alert. -/
lemma daily_no_ma (history : List AggRec) (current : AggRec) :
    (dailyChangeAlerts history current).filter (fun a => a.kind == "ma_reversal") = [] := by
  simp only [dailyChangeAlerts]
  split <;> first | rfl | (split_ifs <;> rfl)

/-- No alert of section 3 is a moving-average alert. -/
lemma gap_no_ma (current : AggRec) :
    (gapAlerts current).filter (fun a => a.kind == "ma_reversal") = [] := by
  simp only [gapAlerts]
  split_ifs <;> rfl

/-- C5: with at least one prior record, `detect_alerts` emits a
`daily_change` alert iff `|current.total_score - previous.total_score| ≥ 3`
(the previous record being the last history entry), with severity
"warning" iff the absolute delta is `≥ 5`, "info" otherwise — the
boundary values 3 and 5 included; with no prior record, no
`daily_change` alert is emitted. -/
theorem daily_change_alert_characterization :
    ∀ (history : List AggRec) (current : AggRec),
      (detect_alerts history current).filter (fun a => a.kind == "daily_change")
        = match history.getLast? with
          | none => []
          | some prev =>
            if 3 ≤ |current.total_score - prev.total_score| then
              [{ kind := "daily_change",
                 severity :=
                   if 5 ≤ |current.total_score - prev.total_score| then "warning"
                   else "info" }]
            else [] := by
  intro history current
  unfold detect_alerts
  rw [List.filter_append, List.filter_append, maReversal_no_daily, gap_no_daily,
    List.append_nil, List.append_nil]
  simp only [dailyChangeAlerts, ALERT_DAILY_CHANGE]
  split <;> first | rfl | (split_ifs <;> rfl)

/-- C6: `detect_alerts` emits a `ma_reversal` alert only when the
history is strictly longer than the window 3, and then exactly when the
average of the last 3 records and the average of the 3 records ending
one position earlier (`history[-4:-1]`, the previous day's window) lie
in opposite sign classes (one `≥ 0`, the other `< 0`); it never fires
when both averages are in the same sign class.  Severity is "warning"
when the recent average flips negative and "info" when it flips
non-negative. -/
theorem ma_reversal_alert_characterization :
    ∀ (history : List AggRec) (current : AggRec),
      (detect_alerts history current).filter (fun a => a.kind == "ma_reversal")
        = if 3 < history.length then
            if 0 ≤ ((lastN 3 history).map (fun h => h.total_score)).sum / (3:ℚ)
                ∧ ((lastN 3 history.dropLast).map (fun h => h.total_score)).sum / (3:ℚ) < 0
            then [{ kind := "ma_reversal", severity := "info" }]
            else if ((lastN 3 history).map (fun h => h.total_score)).sum / (3:ℚ) < 0
                ∧ 0 ≤ ((lastN 3 history.dropLast).map (fun h => h.total_score)).sum / (3:ℚ)
            then [{ kind := "ma_reversal", severity := "warning" }]
            else []
          else [] := by
  intro history current
  unfold detect_alerts
  rw [List.filter_append, List.filter_append, daily_no_ma, gap_no_ma,
    List.append_nil, List.nil_append]
  simp only [maReversalAlerts, ALERT_MA_WINDOW]
  by_cases h34 : 3 < history.length
  · have h33 : 3 ≤ history.length := by omega
    have h3 : (lastN 3 history).length = 3 := by
      unfold lastN; rw [List.length_drop]; omega
    simp only [if_pos h33, if_pos h34, List.length_map, h3, Nat.cast_ofNat]
    split_ifs <;> rfl
  · by_cases h33 : 3 ≤ history.length
    · simp only [if_pos h33, if_neg h34]
      rfl
    · simp only [if_neg h33, if_neg h34]
      rfl

/-- The update loop finds no record exactly when no record carries
today's date. -/
lemma updateFirst_eq_none_iff (today : Int) (v : DailyVals) :
    ∀ l : List HRec, updateFirst today v l = none ↔ ∀ r ∈ l, r.date ≠ today := by
  intro l
  induction l with
  | nil => simp [updateFirst]
  | cons r rest ih =>
    unfold updateFirst
    by_cases h : r.date = today
    · simp [h]
    · simp [h, Option.map_eq_none', ih]

/-- The update loop preserves the number of records. -/
lemma updateFirst_length (today : Int) (v : DailyVals) :
    ∀ l l' : List HRec, updateFirst today v l = some l' → l'.length = l.length := by
  intro l
  induction l with
  | nil => intro l' h; simp [updateFirst] at h
  | cons r rest ih =>
    intro l' h
    unfold updateFirst at h
    by_cases hd : r.date = today
    · rw [if_pos hd] at h
      cases h
      simp
    · rw [if_neg hd] at h
      rcases Option.map_eq_some'.mp h with ⟨rs, hrs, rfl⟩
      simp [ih rs hrs]

/-- When the update loop finds a record, the updated store still has a
record dated `today`. -/
lemma updateFirst_mem_today (today : Int) (v : DailyVals) :
    ∀ l l' : List HRec, updateFirst today v l = some l' →
      ∃ r ∈ l', r.date = today := by
  intro l
  induction l with
  | nil => intro l' h; simp [updateFirst] at h
  | cons r rest ih =>
    intro l' h
    unfold updateFirst at h
    by_cases hd : r.date = today
    · rw [if_pos hd] at h
      cases h
      exact ⟨{ date := r.date, vals := v }, List.mem_cons_self _ _, hd⟩
    · rw [if_neg hd] at h
      rcases Option.map_eq_some'.mp h with ⟨rs, hrs, rfl⟩
      rcases ih rs hrs with ⟨x, hx, hxd⟩
      exact ⟨x, List.mem_cons_of_mem _ hx, hxd⟩

/-- After any `add_daily_record` call, a record dated `today` is in the
store. -/
lemma add_daily_record_mem_today (history : List HRec) (today : Int)
    (v : DailyVals) : ∃ r ∈ add_daily_record history today v, r.date = today := by
  unfold add_daily_record
  cases hu : updateFirst today v history with
  | some h' => exact updateFirst_mem_today today v history h' hu
  | none =>
    refine ⟨{ date := today, vals := v }, List.mem_filter.mpr ⟨?_, ?_⟩, rfl⟩
    · exact List.mem_append_right _ (List.mem_singleton.mpr rfl)
    · simp only [decide_eq_true_eq]
      omega

/-- C3 counterexample: with a prior store holding today's entry and a
stale entry (31+ days old), the same-day update path of
`add_daily_record` returns without pruning, so the stale entry
survives the call. -/
theorem add_daily_record_prune_skipped_counterexample :
    ∃ r ∈ add_daily_record
        [{ date := 0, vals := ⟨0, 0, 0, 0, 0, 0⟩ },
         { date := 100, vals := ⟨0, 0, 0, 0, 0, 0⟩ }] 100 ⟨1, 0, 0, 0, 0, 0⟩,
      r.date < 100 - 30 := by decide

/-- C3 (amended): calling `add_daily_record` twice on the same day
updates in place without growing the entry count; and after a call that
takes the insert path (no prior record for today), no entry dated more
than 30 days before today remains.  (On the same-day update path the
prune is skipped, as the counterexample shows.) -/
theorem add_daily_record_upsert_and_prune :
    ∀ (history : List HRec) (today : Int) (v1 v2 : DailyVals),
      (add_daily_record (add_daily_record history today v1) today v2).length
          = (add_daily_record history today v1).length
      ∧ ((∀ r ∈ history, r.date ≠ today) →
          ∀ r ∈ add_daily_record history today v1, today - 30 ≤ r.date) := by
  intro history today v1 v2
  constructor
  · rcases add_daily_record_mem_today history today v1 with ⟨r, hr, hrd⟩
    generalize hA : add_daily_record history today v1 = A at hr ⊢
    cases hu : updateFirst today v2 A with
    | none =>
      exact absurd hrd ((updateFirst_eq_none_iff today v2 _).mp hu r hr)
    | some h' =>
      show (add_daily_record A today v2).length = A.length
      unfold add_daily_record
      rw [hu]
      exact updateFirst_length today v2 A h' hu
  · intro hnone r hr
    unfold add_daily_record at hr
    rw [(updateFirst_eq_none_iff today v1 history).mpr hnone] at hr
    have := (List.mem_filter.mp hr).2
    simpa using this

/-- Witness for C3 (amended) at a concrete store. -/
theorem add_daily_record_upsert_and_prune_witness :
    (add_daily_record (add_daily_record [] 0 ⟨1, 0, 0, 0, 0, 0⟩) 0 ⟨2, 0, 0, 0, 0, 0⟩).length
        = (add_daily_record [] 0 ⟨1, 0, 0, 0, 0, 0⟩).length
    ∧ (0 : Int) - 30 ≤ ({ date := 0, vals := ⟨1, 0, 0, 0, 0, 0⟩ } : HRec).date :=
  ⟨(add_daily_record_upsert_and_prune [] 0 ⟨1, 0, 0, 0, 0, 0⟩ ⟨2, 0, 0, 0, 0, 0⟩).1,
   (add_daily_record_upsert_and_prune [] 0 ⟨1, 0, 0, 0, 0, 0⟩ ⟨2, 0, 0, 0, 0, 0⟩).2
     (by decide) _ (by decide)⟩

/-- A well-formed item with a passthrough field. -/
def goodNews : NDict := [("text", Val.str "株価が上昇"), ("url", Val.str "u1")]

/-- An item missing the required `text` field. -/
def badNews : NDict := [("title", Val.str "見出しのみ")]

/-- C4 counterexample: a batch holding one well-formed item and one item
missing its `text` field is aborted whole by `classify_news_batch`
(`KeyError` propagates: result `none`), although the well-formed item
alone classifies fine — nothing is skipped, no partial result is
reported. -/
theorem classify_batch_abort_counterexample :
    classify_news_batch [goodNews, badNews] = none
    ∧ (classifyItem goodNews).isSome = true
    ∧ classifyItem badNews = none := by
  refine ⟨by decide, by decide, by decide⟩

/-- Whether `calculate_impact_score` raises does not depend on the
random draw. -/
lemma calculate_impact_score_none_rng (d : NDict) (r : Nat) :
    (calculate_impact_score d r = none) ↔ (calculate_impact_score d 0 = none) := by
  unfold calculate_impact_score
  rcases dget d "text" with _ | (s | n | _) <;> simp

/-- The scoring loop aborts exactly when some item raises (whatever the
per-item random draws are). -/
lemma score_go_none_iff (rng : Nat → Nat) :
    ∀ (items : List NDict) (idx : Nat),
      score_news_batch.go rng idx items = none
        ↔ ∃ i ∈ items, calculate_impact_score i 0 = none := by
  intro items
  induction items with
  | nil => intro idx; simp [score_news_batch.go]
  | cons i t ih =>
    intro idx
    unfold score_news_batch.go
    cases hc : scoreItem (rng idx) i with
    | none =>
      unfold scoreItem at hc
      rw [Option.map_eq_none'] at hc
      simp [(calculate_impact_score_none_rng i (rng idx)).mp hc]
    | some r =>
      have hnone : ¬ calculate_impact_score i 0 = none := by
        intro h0
        have : calculate_impact_score i (rng idx) = none :=
          (calculate_impact_score_none_rng i (rng idx)).mpr h0
        simp [scoreItem, this] at hc
      simp [hc, Option.map_eq_none', ih (idx + 1), hnone]

/-- C4 (amended): a per-item failure aborts the whole batch — the batch
functions have no per-item error handling.  `classify_news_batch`
returns `none` exactly when some item raises in classification;
`score_news_batch` returns `none` exactly when some item raises in
scoring; and the reported `news_count` is the length of the list that
reached aggregation (all submitted items when nothing raised), not a
count of effectively-scored survivors of skipped failures. -/
theorem batch_failure_aborts :
    (∀ items : List NDict,
        classify_news_batch items = none ↔ ∃ i ∈ items, classifyItem i = none)
    ∧ (∀ (rng : Nat → Nat) (items : List NDict),
        score_news_batch rng items = none
          ↔ ∃ i ∈ items, calculate_impact_score i 0 = none)
    ∧ (∀ (l : List NDict) (agg : AggScores),
        calculate_aggregate_scores l = some agg → agg.news_count = l.length) := by
  refine ⟨?_, ?_, ?_⟩
  · intro items
    induction items with
    | nil => simp [classify_news_batch]
    | cons i t ih =>
      unfold classify_news_batch
      cases hc : classifyItem i with
      | none => simp [hc]
      | some r => simp [hc, Option.map_eq_none', ih]
  · intro rng items
    exact score_go_none_iff rng items 0
  · intro l agg h
    unfold calculate_aggregate_scores at h
    by_cases he : l.isEmpty
    · rw [if_pos he] at h
      cases h
      simp [zeroAgg, List.isEmpty_iff.mp he]
    · rw [if_neg he] at h
      split at h
      · exact absurd h (by simp)
      · split at h
        · exact absurd h (by simp)
        · split at h
          · exact absurd h (by simp)
          · cases h
            rfl

/-- Witness for C4 (amended) at concrete inputs. -/
theorem batch_failure_aborts_witness :
    zeroAgg.news_count = ([] : List NDict).length :=
  batch_failure_aborts.2.2 [] zeroAgg (by decide)

/-- Lookup over a Python-merge: the overriding dict is consulted first. -/
lemma dget_append (a b : NDict) (k : String) :
    dget (a ++ b) k = (dget a k).or (dget b k) := by
  unfold dget
  rw [List.find?_append]
  cases hfind : List.find? (fun p => p.1 = k) a <;> simp [hfind]

/-- Lookup skips a fresh key that differs from the one sought. -/
lemma dget_cons_ne (d : NDict) (k k' : String) (v' : Val) (h : k ≠ k') :
    dget ((k', v') :: d) k = dget d k := by
  unfold dget
  rw [List.find?_cons_of_neg]
  simp [Ne.symm h]

/-- The classifier's own output holds no key other than its five
result keys. -/
lemma dget_classify_news_other (t : String) (src : Val) (k : String)
    (h1 : k ≠ "text") (h2 : k ≠ "source") (h3 : k ≠ "category")
    (h4 : k ≠ "category_name") (h5 : k ≠ "sub_category") :
    dget (classify_news t src) k = none := by
  unfold classify_news dget
  simp [List.find?, Ne.symm h1, Ne.symm h2, Ne.symm h3, Ne.symm h4, Ne.symm h5]

/-- C10: the classification and scoring stages return new records that
carry every caller-supplied field through with its original value: a
field whose key is not among a stage's own output keys is looked up
unchanged in the stage's output, and the classifier also re-emits the
original `text` and `source` values. -/
theorem batch_stages_preserve_passthrough_fields :
    (∀ (item out : NDict), classifyItem item = some out →
        ∀ k : String, k ≠ "category" → k ≠ "category_name" → k ≠ "sub_category" →
          ∀ v : Val, dget item k = some v → dget out k = some v)
    ∧ (∀ (rng : Nat) (item out : NDict), scoreItem rng item = some out →
        ∀ k : String, k ≠ "impact_score" → k ≠ "score_reason" →
          dget out k = dget item k) := by
  constructor
  · intro item out hio k h3 h4 h5 v hv
    unfold classifyItem at hio
    rcases ht : dget item "text" with _ | (s | n | _) <;> rw [ht] at hio <;>
      cases hio
    rw [dmerge, dget_append]
    by_cases h1 : k = "text"
    · subst h1
      rw [hv] at ht
      cases ht
      rfl
    · by_cases h2 : k = "source"
      · subst h2
        have hsrc : dget (classify_news s (dgetD item "source" (Val.str "domestic")))
            "source" = some (dgetD item "source" (Val.str "domestic")) := rfl
        rw [hsrc]
        unfold dgetD
        rw [hv]
        rfl
      · rw [dget_classify_news_other s _ k h1 h2 h3 h4 h5]
        simpa using hv
  · intro rng item out hio k h1 h2
    unfold scoreItem at hio
    rcases Option.map_eq_some'.mp hio with ⟨p, hp, rfl⟩
    unfold dput
    rw [dget_cons_ne _ _ _ _ h2, dget_cons_ne _ _ _ _ h1]

/-- Witness for C10: a `url` passthrough field survives both stages at a
concrete item. -/
theorem batch_stages_preserve_passthrough_fields_witness :
    dget (dmerge goodNews (classify_news "株価が上昇" (Val.str "domestic"))) "url"
        = some (Val.str "u1")
    ∧ dget (dput (dput goodNews "impact_score" (Val.int 2))
        "score_reason" (Val.str "やや好材料（上昇）")) "url" = dget goodNews "url" :=
  ⟨batch_stages_preserve_passthrough_fields.1 goodNews
      (dmerge goodNews (classify_news "株価が上昇" (Val.str "domestic"))) rfl
      "url" (by decide) (by decide) (by decide) (Val.str "u1") (by decide),
   batch_stages_preserve_passthrough_fields.2 0 goodNews
      (dput (dput goodNews "impact_score" (Val.int 2))
        "score_reason" (Val.str "やや好材料（上昇）")) (by decide)
      "url" (by decide) (by decide)⟩

/-- A scored item carrying an impact score and an origin. -/
def pairDict (p : Int × String) : NDict :=
  [("impact_score", Val.int p.1), ("source", Val.str p.2)]

/-- Filtering scored items by origin is filtering the underlying pairs. -/
lemma filter_source_pairDict (items : List (Int × String)) (s : String) :
    (items.map pairDict).filter
        (fun n => dget n "source" = some (Val.str s))
      = (items.filter (fun p => p.2 = s)).map pairDict := by
  induction items with
  | nil => rfl
  | cons a t ih =>
    have hred : dget (pairDict a) "source" = some (Val.str a.2) := rfl
    rw [List.map_cons]
    by_cases h : a.2 = s
    · rw [List.filter_cons_of_pos (by simp [hred, h]),
        List.filter_cons_of_pos (by simp [h]), List.map_cons, ih]
    · rw [List.filter_cons_of_neg (by simp [hred, h]),
        List.filter_cons_of_neg (by simp [h]), ih]

/-- Extracting `impact_score` from well-formed scored items never
raises and returns the underlying scores. -/
lemma mapO_getImpact_pairDict (l : List (Int × String)) :
    mapO getImpact (l.map pairDict) = some (l.map (fun p => p.1)) := by
  induction l with
  | nil => rfl
  | cons a t ih =>
    simp only [List.map_cons, mapO]
    rw [show getImpact (pairDict a) = some a.1 from rfl, ih]
    rfl

/-- Rounding zero to one decimal is zero. -/
lemma round1_zero : round1 0 = 0 := by
  norm_num [round1, rndHalfEven]

/-- C8 counterexample: on three domestic items scoring 1, 0, 0 and
three foreign items scoring −1, 0, 0, the code reports
`domestic_foreign_gap = 0.7` (the rounding of the unrounded mean
difference 2/3), while `domestic_score − foreign_score = 0.3 − (−0.3)`
is 0.6 — so the gap is NOT domestic_score minus foreign_score (with or
without a final rounding). -/
theorem aggregate_gap_counterexample :
    calculate_aggregate_scores
        ([((1 : Int), "domestic"), (0, "domestic"), (0, "domestic"),
          (-1, "foreign"), (0, "foreign"), (0, "foreign")].map pairDict)
      = some { total_score := 0, domestic_score := 3/10, foreign_score := -(3/10),
               domestic_foreign_gap := 7/10, news_count := 6, zero_score_count := 4 }
    ∧ (7/10 : ℚ) ≠ (3/10 : ℚ) - (-(3/10) : ℚ)
    ∧ (7/10 : ℚ) ≠ round1 ((3/10 : ℚ) - (-(3/10) : ℚ)) := by
  have hd : calculate_aggregate_scores
      ([((1 : Int), "domestic"), (0, "domestic"), (0, "domestic"),
        (-1, "foreign"), (0, "foreign"), (0, "foreign")].map pairDict)
      = some { total_score := round1 (avgOr0 [1, 0, 0, -1, 0, 0]),
               domestic_score := round1 (avgOr0 [1, 0, 0]),
               foreign_score := round1 (avgOr0 [-1, 0, 0]),
               domestic_foreign_gap := round1 (avgOr0 [1, 0, 0] - avgOr0 [-1, 0, 0]),
               news_count := 6, zero_score_count := 4 } := rfl
  refine ⟨?_, by norm_num, by norm_num [round1, rndHalfEven]⟩
  rw [hd]
  simp only [Option.some.injEq, AggScores.mk.injEq]
  norm_num [avgOr0, round1, rndHalfEven]

/-- C8 (amended): on the empty list `calculate_aggregate_scores`
returns the all-zero record; on any list, total/domestic/foreign scores
are the one-decimal roundings of the arithmetic means of the scores
over the whole batch and over each origin partition (an empty origin
subset contributing 0), `zero_score_count` counts exactly the items
scoring 0, `news_count` is the batch length — and `domestic_foreign_gap`
is the one-decimal rounding of the difference of the UNROUNDED
domestic and foreign means (which can differ from
`domestic_score − foreign_score`, as the counterexample shows). -/
theorem aggregate_scores_characterization :
    ∀ items : List (Int × String),
      calculate_aggregate_scores (items.map pairDict)
        = some
          { total_score := round1 (avgOr0 (items.map (fun p => p.1))),
            domestic_score := round1 (avgOr0
              ((items.filter (fun p => p.2 = "domestic")).map (fun p => p.1))),
            foreign_score := round1 (avgOr0
              ((items.filter (fun p => p.2 = "foreign")).map (fun p => p.1))),
            domestic_foreign_gap := round1
              (avgOr0 ((items.filter (fun p => p.2 = "domestic")).map (fun p => p.1))
                - avgOr0 ((items.filter (fun p => p.2 = "foreign")).map (fun p => p.1))),
            news_count := items.length,
            zero_score_count := (items.filter (fun p => p.1 = 0)).length } := by
  intro items
  unfold calculate_aggregate_scores
  by_cases he : items = []
  · subst he
    simp [zeroAgg, avgOr0, round1_zero]
  · have hne : ¬ ((items.map pairDict).isEmpty = true) := by
      cases items with
      | nil => exact absurd rfl he
      | cons a t => simp
    rw [if_neg hne, filter_source_pairDict items "domestic",
      filter_source_pairDict items "foreign", mapO_getImpact_pairDict,
      mapO_getImpact_pairDict, mapO_getImpact_pairDict]
    simp only [Option.some.injEq, AggScores.mk.injEq, List.length_map,
      List.filter_map]
    refine ⟨trivial, trivial, trivial, trivial, trivial, rfl⟩

end MarketObserver
